import Mathlib

/-
Verification development for the outagenotifier repository.

Shallow embedding of the core logic:
  - outageparser.py : sort_outages_by_status (temporal classification)
  - hmdcoutages.py  : parseDateHTML / formatDateAsUnix (date-range parsing),
                      isFeedUpdated (feed change detection),
                      writeParsedXML / parseOutagesXML / sanitizeText (snapshot IO)

Machine integers are modelled as Int (Python ints are unbounded).  Fallible
code returns Except String.  Error message strings are not significant and are
not claimed to match the Python exception text verbatim.
-/

namespace OutageNotifier

/-- Canonical outage record as consumed by sort_outages_by_status
(outageparser.py, dictionaries produced by parse_xml). -/
structure Outage where
  title : String
  start_time : Int
  end_time : Int
  link : String
  mod_time : Int
  resolved : Bool
deriving Repr, DecidableEq

/-- The Parsing section of the configuration (outageparser.py _get_settings). -/
structure ParserSettings where
  scope_ahead : Int
  scope_past : Int
deriving Repr, DecidableEq

/-- The three bucket names used by sort_outages_by_status. -/
inductive Status
  | active
  | completed
  | scheduled
deriving Repr, DecidableEq

/-- Result dictionary of sort_outages_by_status:
{"completed": [], "scheduled": [], "active": []}. -/
structure SortedOutages where
  completed : List Outage
  scheduled : List Outage
  active : List Outage
deriving Repr, DecidableEq

/-- The per-record body of the loop in sort_outages_by_status
(outageparser.py lines 394-486).  Returns the bucket the record is appended
to, none when the record is dropped, and an error for the integrity raise
at line 427. -/
def classifyOutage (settings : ParserSettings) (now : Int) (outage : Outage) :
    Except String (Option Status) :=
  -- seconds_until_start = outage["start_time"] - now
  -- seconds_until_end   = outage["end_time"] - now
  -- has_started  = seconds_until_start <= 0
  -- has_ended    = seconds_until_end <= 0
  -- has_end_time = outage["end_time"] != 0
  if outage.end_time ≠ 0 ∧ (outage.end_time - now ≤ 0 ∧ ¬(outage.start_time - now ≤ 0)) then
    Except.error "Event cannot end without starting!"
  else if (outage.start_time - now ≤ 0 ∧
           (¬(outage.end_time - now ≤ 0) ∨ ¬(outage.end_time ≠ 0))) ∧
          outage.resolved = false then
    Except.ok (some Status.active)
  else if ((outage.start_time - now ≤ 0 ∧ outage.end_time - now ≤ 0) ∨
           outage.resolved = true) ∧
          |outage.end_time - now| < settings.scope_past then
    Except.ok (some Status.completed)
  else if (¬(outage.start_time - now ≤ 0) ∧ outage.resolved = false) ∧
          outage.start_time - now < settings.scope_ahead then
    Except.ok (some Status.scheduled)
  else
    Except.ok none

/-- The iteration of sort_outages_by_status over the outage list, threading
the accumulated buckets (list append preserves the feed order, as the Python
list.append does). -/
def sortOutagesByStatusAux (settings : ParserSettings) (now : Int) :
    List Outage → SortedOutages → Except String SortedOutages
  | [], acc => Except.ok acc
  | outage :: rest, acc =>
    match classifyOutage settings now outage with
    | Except.error e => Except.error e
    | Except.ok (some Status.active) =>
        sortOutagesByStatusAux settings now rest
          { acc with active := acc.active ++ [outage] }
    | Except.ok (some Status.completed) =>
        sortOutagesByStatusAux settings now rest
          { acc with completed := acc.completed ++ [outage] }
    | Except.ok (some Status.scheduled) =>
        sortOutagesByStatusAux settings now rest
          { acc with scheduled := acc.scheduled ++ [outage] }
    | Except.ok none =>
        sortOutagesByStatusAux settings now rest acc

/-- sort_outages_by_status (outageparser.py lines 365-490):
the current time is passed explicitly (the source reads int(time.time())). -/
def sortOutagesByStatus (settings : ParserSettings) (now : Int)
    (outages : List Outage) : Except String SortedOutages :=
  sortOutagesByStatusAux settings now outages ⟨[], [], []⟩

/-- Boolean test: the record is appended to the active bucket. -/
def isActive (settings : ParserSettings) (now : Int) (o : Outage) : Bool :=
  match classifyOutage settings now o with
  | Except.ok (some Status.active) => true
  | _ => false

/-- Boolean test: the record is appended to the completed bucket. -/
def isCompleted (settings : ParserSettings) (now : Int) (o : Outage) : Bool :=
  match classifyOutage settings now o with
  | Except.ok (some Status.completed) => true
  | _ => false

/-- Boolean test: the record is appended to the scheduled bucket. -/
def isScheduled (settings : ParserSettings) (now : Int) (o : Outage) : Bool :=
  match classifyOutage settings now o with
  | Except.ok (some Status.scheduled) => true
  | _ => false

lemma sortOutagesByStatusAux_spec (settings : ParserSettings) (now : Int) :
    ∀ (l : List Outage) (acc res : SortedOutages),
      sortOutagesByStatusAux settings now l acc = Except.ok res →
      res.active = acc.active ++ l.filter (isActive settings now) ∧
      res.completed = acc.completed ++ l.filter (isCompleted settings now) ∧
      res.scheduled = acc.scheduled ++ l.filter (isScheduled settings now) := by
  intro l
  induction l with
  | nil =>
    intro acc res h
    simp only [sortOutagesByStatusAux] at h
    cases h
    simp
  | cons o rest ih =>
    intro acc res h
    rcases hc : classifyOutage settings now o with e | c
    · simp only [sortOutagesByStatusAux, hc] at h
      exact absurd h (by simp)
    · cases c with
      | none =>
        simp only [sortOutagesByStatusAux, hc] at h
        have := ih _ _ h
        simp only [List.filter_cons, isActive, isCompleted, isScheduled, hc] at this ⊢
        simpa using this
      | some st =>
        cases st with
        | active =>
          simp only [sortOutagesByStatusAux, hc] at h
          have := ih _ _ h
          simp only [List.filter_cons, isActive, isCompleted, isScheduled, hc] at this ⊢
          simpa [List.append_assoc] using this
        | completed =>
          simp only [sortOutagesByStatusAux, hc] at h
          have := ih _ _ h
          simp only [List.filter_cons, isActive, isCompleted, isScheduled, hc] at this ⊢
          simpa [List.append_assoc] using this
        | scheduled =>
          simp only [sortOutagesByStatusAux, hc] at h
          have := ih _ _ h
          simp only [List.filter_cons, isActive, isCompleted, isScheduled, hc] at this ⊢
          simpa [List.append_assoc] using this

lemma sortOutagesByStatus_spec (settings : ParserSettings) (now : Int)
    (outages : List Outage) (res : SortedOutages)
    (h : sortOutagesByStatus settings now outages = Except.ok res) :
    res.active = outages.filter (isActive settings now) ∧
    res.completed = outages.filter (isCompleted settings now) ∧
    res.scheduled = outages.filter (isScheduled settings now) := by
  have := sortOutagesByStatusAux_spec settings now outages ⟨[], [], []⟩ res h
  simpa using this

lemma sortOutagesByStatusAux_classify_ok (settings : ParserSettings) (now : Int) :
    ∀ (l : List Outage) (acc res : SortedOutages),
      sortOutagesByStatusAux settings now l acc = Except.ok res →
      ∀ o ∈ l, ∃ c, classifyOutage settings now o = Except.ok c := by
  intro l
  induction l with
  | nil => intro acc res _ o ho; cases ho
  | cons o rest ih =>
    intro acc res h o2 ho2
    rcases hc : classifyOutage settings now o with e | c
    · simp only [sortOutagesByStatusAux, hc] at h
      exact absurd h (by simp)
    · rcases List.mem_cons.mp ho2 with h1 | h1
      · exact ⟨c, h1 ▸ hc⟩
      · cases c with
        | none =>
          simp only [sortOutagesByStatusAux, hc] at h
          exact ih _ _ h o2 h1
        | some st =>
          cases st with
          | active =>
            simp only [sortOutagesByStatusAux, hc] at h
            exact ih _ _ h o2 h1
          | completed =>
            simp only [sortOutagesByStatusAux, hc] at h
            exact ih _ _ h o2 h1
          | scheduled =>
            simp only [sortOutagesByStatusAux, hc] at h
            exact ih _ _ h o2 h1

lemma sortOutagesByStatus_classify_ok (settings : ParserSettings) (now : Int)
    (outages : List Outage) (res : SortedOutages)
    (h : sortOutagesByStatus settings now outages = Except.ok res) :
    ∀ o ∈ outages, ∃ c, classifyOutage settings now o = Except.ok c :=
  sortOutagesByStatusAux_classify_ok settings now outages ⟨[], [], []⟩ res h

lemma isActive_iff (settings : ParserSettings) (now : Int) (o : Outage) :
    isActive settings now o = true ↔
      classifyOutage settings now o = Except.ok (some Status.active) := by
  unfold isActive
  rcases hc : classifyOutage settings now o with e | c
  · simp
  · cases c with
    | none => simp
    | some st => cases st <;> simp

lemma isCompleted_iff (settings : ParserSettings) (now : Int) (o : Outage) :
    isCompleted settings now o = true ↔
      classifyOutage settings now o = Except.ok (some Status.completed) := by
  unfold isCompleted
  rcases hc : classifyOutage settings now o with e | c
  · simp
  · cases c with
    | none => simp
    | some st => cases st <;> simp

lemma isScheduled_iff (settings : ParserSettings) (now : Int) (o : Outage) :
    isScheduled settings now o = true ↔
      classifyOutage settings now o = Except.ok (some Status.scheduled) := by
  unfold isScheduled
  rcases hc : classifyOutage settings now o with e | c
  · simp
  · cases c with
    | none => simp
    | some st => cases st <;> simp

/-- Sample configuration used by concrete witnesses: scope_ahead = 31 days,
scope_past = 1 hour (in seconds), as in the documented scenarios. -/
def sampleSettings : ParserSettings := ⟨2678400, 3600⟩

/-- Record with end_time before start_time, both in the past relative to
now = 1000 (start = now - 100, end = now - 200). -/
def oEndBeforeStart : Outage :=
  ⟨"Outage_D", 900, 800, "http://example.org/d", 0, false⟩

/-- Record that classifies as active at now = 1000. -/
def oActive : Outage :=
  ⟨"Outage_A", 900, 0, "http://example.org/a", 0, false⟩

/-- Resolved record without an end time. -/
def oResolvedNoEnd : Outage :=
  ⟨"Outage_R", 50, 0, "http://example.org/r", 0, true⟩

/-- C1 counterexample: the record start = now - 100, end = now - 200
(end_time = 800 ≠ 0 strictly before start_time = 900, now = 1000) does NOT
make sort_outages_by_status raise; it is placed in the completed bucket
(within past scope), contradicting the claim that every end-before-start
record fails with DataIntegrityError regardless of where start_time lies. -/
theorem claim_C1_counterexample :
    sortOutagesByStatus sampleSettings 1000 [oEndBeforeStart] =
      Except.ok ⟨[oEndBeforeStart], [], []⟩ := by
  rfl

/-- C1 amended: classification raises the integrity error exactly for the
records with a defined end time that has already passed while the start time
is still in the future (end_time ≠ 0 and end_time ≤ now < start_time).  An
end-before-start record whose start time is already in the past is not
detected and is classified normally. -/
theorem claim_C1 (settings : ParserSettings) (now : Int) (o : Outage) :
    classifyOutage settings now o = Except.error "Event cannot end without starting!" ↔
      (o.end_time ≠ 0 ∧ o.end_time ≤ now ∧ now < o.start_time) := by
  unfold classifyOutage
  split_ifs with h1 h2 h3 h4
  · obtain ⟨a, b, c⟩ := h1
    constructor
    · intro _
      exact ⟨a, by omega, by omega⟩
    · intro _
      rfl
  all_goals
    rw [false_iff]
    rintro ⟨a, b, c⟩
    exact absurd ⟨a, by omega, by omega⟩ h1

/-- C2: whenever sort_outages_by_status returns without raising, the three
buckets are pairwise disjoint, and every input record either sits in exactly
the bucket its classification names or is in no bucket at all (dropped). -/
theorem claim_C2 (settings : ParserSettings) (now : Int)
    (outages : List Outage) (res : SortedOutages)
    (h : sortOutagesByStatus settings now outages = Except.ok res) :
    (∀ o : Outage,
      ¬(o ∈ res.active ∧ o ∈ res.completed) ∧
      ¬(o ∈ res.active ∧ o ∈ res.scheduled) ∧
      ¬(o ∈ res.completed ∧ o ∈ res.scheduled)) ∧
    (∀ o ∈ outages,
      (o ∈ res.active ∧ classifyOutage settings now o = Except.ok (some Status.active)) ∨
      (o ∈ res.completed ∧ classifyOutage settings now o = Except.ok (some Status.completed)) ∨
      (o ∈ res.scheduled ∧ classifyOutage settings now o = Except.ok (some Status.scheduled)) ∨
      (o ∉ res.active ∧ o ∉ res.completed ∧ o ∉ res.scheduled ∧
        classifyOutage settings now o = Except.ok none)) := by
  obtain ⟨ha, hc, hs⟩ := sortOutagesByStatus_spec settings now outages res h
  constructor
  · intro o
    refine ⟨?_, ?_, ?_⟩
    · rintro ⟨m1, m2⟩
      rw [ha] at m1
      rw [hc] at m2
      have t1 := (isActive_iff settings now o).mp (List.mem_filter.mp m1).2
      have t2 := (isCompleted_iff settings now o).mp (List.mem_filter.mp m2).2
      rw [t1] at t2
      exact absurd t2 (by simp)
    · rintro ⟨m1, m2⟩
      rw [ha] at m1
      rw [hs] at m2
      have t1 := (isActive_iff settings now o).mp (List.mem_filter.mp m1).2
      have t2 := (isScheduled_iff settings now o).mp (List.mem_filter.mp m2).2
      rw [t1] at t2
      exact absurd t2 (by simp)
    · rintro ⟨m1, m2⟩
      rw [hc] at m1
      rw [hs] at m2
      have t1 := (isCompleted_iff settings now o).mp (List.mem_filter.mp m1).2
      have t2 := (isScheduled_iff settings now o).mp (List.mem_filter.mp m2).2
      rw [t1] at t2
      exact absurd t2 (by simp)
  · intro o ho
    obtain ⟨c, hcl⟩ := sortOutagesByStatus_classify_ok settings now outages res h o ho
    cases c with
    | none =>
      refine Or.inr (Or.inr (Or.inr ⟨?_, ?_, ?_, hcl⟩))
      · intro m
        rw [ha] at m
        have := (isActive_iff settings now o).mp (List.mem_filter.mp m).2
        rw [hcl] at this
        exact absurd this (by simp)
      · intro m
        rw [hc] at m
        have := (isCompleted_iff settings now o).mp (List.mem_filter.mp m).2
        rw [hcl] at this
        exact absurd this (by simp)
      · intro m
        rw [hs] at m
        have := (isScheduled_iff settings now o).mp (List.mem_filter.mp m).2
        rw [hcl] at this
        exact absurd this (by simp)
    | some st =>
      cases st with
      | active =>
        refine Or.inl ⟨?_, hcl⟩
        rw [ha]
        exact List.mem_filter.mpr ⟨ho, (isActive_iff settings now o).mpr hcl⟩
      | completed =>
        refine Or.inr (Or.inl ⟨?_, hcl⟩)
        rw [hc]
        exact List.mem_filter.mpr ⟨ho, (isCompleted_iff settings now o).mpr hcl⟩
      | scheduled =>
        refine Or.inr (Or.inr (Or.inl ⟨?_, hcl⟩))
        rw [hs]
        exact List.mem_filter.mpr ⟨ho, (isScheduled_iff settings now o).mpr hcl⟩

/-- C2 witness: a concrete successful run (one active record at now = 1000),
instantiating the disjointness conclusion. -/
theorem claim_C2_witness :
    ¬(oActive ∈ (⟨[], [], [oActive]⟩ : SortedOutages).active ∧
      oActive ∈ (⟨[], [], [oActive]⟩ : SortedOutages).completed) :=
  ((claim_C2 sampleSettings 1000 [oActive] ⟨[], [], [oActive]⟩ rfl).1 oActive).1

/-- C3: a resolved record with no defined end time (end_time = 0) is never
placed in the completed bucket once now ≥ scope_past, because the past-scope
test compares abs(0 - now) = now against scope_past. -/
theorem claim_C3 (settings : ParserSettings) (now : Int)
    (outages : List Outage) (res : SortedOutages) (o : Outage)
    (h : sortOutagesByStatus settings now outages = Except.ok res)
    (hr : o.resolved = true) (he : o.end_time = 0)
    (hn : settings.scope_past ≤ now) :
    o ∉ res.completed := by
  intro hm
  obtain ⟨ha, hc, hs⟩ := sortOutagesByStatus_spec settings now outages res h
  rw [hc] at hm
  have hcl := (isCompleted_iff settings now o).mp (List.mem_filter.mp hm).2
  unfold classifyOutage at hcl
  split_ifs at hcl with h1 h2 h3 h4
  · exact absurd hcl (by simp)
  · rw [he] at h3
    have h5 := h3.2
    rw [zero_sub, abs_neg] at h5
    have h6 := (abs_lt.mp h5).2
    omega
  · exact absurd hcl (by simp)
  · exact absurd hcl (by simp)

/-- C3 witness: at now = 5000 with scope_past = 3600, the resolved no-end
record is dropped and in particular is not in the completed bucket. -/
theorem claim_C3_witness :
    sortOutagesByStatus sampleSettings 5000 [oResolvedNoEnd] =
      Except.ok ⟨[], [], []⟩ ∧
    oResolvedNoEnd ∉ (⟨[], [], []⟩ : SortedOutages).completed :=
  ⟨rfl, claim_C3 sampleSettings 5000 [oResolvedNoEnd] ⟨[], [], []⟩ oResolvedNoEnd
    rfl rfl rfl (by decide)⟩

/-- C5: a record with the end_time = 0 sentinel that lands in the completed
bucket must be resolved; an unresolved record without an end time is only
ever active, scheduled, or dropped. -/
theorem claim_C5 (settings : ParserSettings) (now : Int)
    (outages : List Outage) (res : SortedOutages) (o : Outage)
    (h : sortOutagesByStatus settings now outages = Except.ok res)
    (he : o.end_time = 0) (hm : o ∈ res.completed) :
    o.resolved = true := by
  obtain ⟨ha, hc, hs⟩ := sortOutagesByStatus_spec settings now outages res h
  rw [hc] at hm
  have hcl := (isCompleted_iff settings now o).mp (List.mem_filter.mp hm).2
  unfold classifyOutage at hcl
  split_ifs at hcl with h1 h2 h3 h4
  · exact absurd hcl (by simp)
  · rcases h3.1 with ⟨hstart, _⟩ | hres
    · cases hres2 : o.resolved with
      | false => exact absurd ⟨⟨hstart, Or.inr (by rw [he]; simp)⟩, hres2⟩ h2
      | true => rfl
    · exact hres
  · exact absurd hcl (by simp)
  · exact absurd hcl (by simp)

/-- C5 witness: at now = 100 the resolved no-end record is in the completed
bucket, and the theorem recovers resolved = true for it. -/
theorem claim_C5_witness :
    sortOutagesByStatus sampleSettings 100 [oResolvedNoEnd] =
      Except.ok ⟨[oResolvedNoEnd], [], []⟩ ∧
    oResolvedNoEnd.resolved = true :=
  ⟨rfl, claim_C5 sampleSettings 100 [oResolvedNoEnd] ⟨[oResolvedNoEnd], [], []⟩
    oResolvedNoEnd rfl rfl (by simp)⟩

/-- C9: classification is deterministic and pure for a fixed now and fixed
scopes: a successful run is reproducible as stated, and every record found
in a bucket is one of the unmodified input records. -/
theorem claim_C9 (settings : ParserSettings) (now : Int)
    (outages : List Outage) (res : SortedOutages)
    (h : sortOutagesByStatus settings now outages = Except.ok res) :
    sortOutagesByStatus settings now outages = Except.ok res ∧
    ∀ o, o ∈ res.active ++ res.completed ++ res.scheduled → o ∈ outages := by
  obtain ⟨ha, hc, hs⟩ := sortOutagesByStatus_spec settings now outages res h
  refine ⟨h, ?_⟩
  intro o hm
  rcases List.mem_append.mp hm with hm1 | hm1
  · rcases List.mem_append.mp hm1 with hm2 | hm2
    · rw [ha] at hm2
      exact List.mem_of_mem_filter hm2
    · rw [hc] at hm2
      exact List.mem_of_mem_filter hm2
  · rw [hs] at hm1
    exact List.mem_of_mem_filter hm1

/-- C9 witness: a concrete run, with the membership conclusion instantiated
at the single input record. -/
theorem claim_C9_witness :
    sortOutagesByStatus sampleSettings 1000 [oActive] =
      Except.ok ⟨[], [], [oActive]⟩ ∧
    oActive ∈ [oActive] :=
  ⟨(claim_C9 sampleSettings 1000 [oActive] ⟨[], [], [oActive]⟩ rfl).1,
   (claim_C9 sampleSettings 1000 [oActive] ⟨[], [], [oActive]⟩ rfl).2 oActive (by simp)⟩

/-
DateRangeParser (hmdcoutages.py, parseDateHTML and the nested
formatDateAsUnix).  The HTML extraction and the regex scan are external
library calls; the embedding starts from their documented result: the list
of non-empty sub-capture tuples (modelled as List String entries, date
entries [month, day] or [month, day, year], time entries
[hour, minute, period]).  time.mktime is the local-time civil-to-epoch
conversion of the C library; it is passed as an explicit function
parameter.  The source builds one string and reparses it with
time.strptime "%b %d %Y %I %M %S %p"; the embedding performs the same
field conversions and validations directly, which is equivalent because
the constructed string is field-separated.
-/

/-- Civil wall-clock datetime handed to mktime (month is 1-12). -/
structure CivilTime where
  year : Nat
  month : Nat
  day : Nat
  hour : Nat
  minute : Nat
  second : Nat
deriving Repr, DecidableEq

/-- The dictionary returned by parseDateHTML: both values are strings
(str(unixtime) or the "0"*10 sentinel). -/
structure DateDict where
  starttime : String
  endtime : String
deriving Repr, DecidableEq

/-- The months tuple of parseDateHTML. -/
def months : List String :=
  ["Jan", "Feb", "Mar", "Apr", "May", "Jun",
   "Jul", "Aug", "Sep", "Oct", "Nov", "Dec"]

/-- Decimal accumulator over a character list (structural recursion, so
that concrete evaluations reduce definitionally). -/
def digitsToNat : List Char → Nat → Option Nat
  | [], acc => some acc
  | c :: cs, acc =>
    if c.isDigit then digitsToNat cs (acc * 10 + (c.toNat - 48)) else none

/-- Python int() on the digit strings produced by the date regex. -/
def pyNat (s : String) : Except String Nat :=
  match s.data with
  | [] => Except.error "ValueError: invalid literal for int"
  | cs =>
    match digitsToNat cs 0 with
    | some n => Except.ok n
    | none => Except.error "ValueError: invalid literal for int"

/-- Indexing that models the Python sequence access dates[i]. -/
def pyIdx {α : Type} (l : List α) (i : Nat) : Except String α :=
  match l.get? i with
  | some x => Except.ok x
  | none => Except.error "IndexError: list index out of range"

/-- The nested formatDateAsUnix of parseDateHTML: combines the date entry at
`index` and the time entry at `index + 1` into a civil datetime (12-hour
clock resolved through am/pm, current year substituted when the date entry
has no year), converts it with mktime and returns str(unixtime).  The field
validations mirror what strptime enforces on the constructed string. -/
def formatDateAsUnix (mktime : CivilTime → Int) (currentYear : Nat)
    (dates : List (List String)) (index : Nat) : Except String String := do
  let entryDate ← pyIdx dates index
  let entryTime ← pyIdx dates (index + 1)
  let month ← pyIdx entryDate 0
  let dayStr ← pyIdx entryDate 1
  let day ← pyNat dayStr
  let hourStr ← pyIdx entryTime 0
  let hour ← pyNat hourStr
  let minuteStr ← pyIdx entryTime 1
  let period ← pyIdx entryTime 2
  let year ←
    if entryDate.length = 3 then do
      let yearStr ← pyIdx entryDate 2
      pyNat yearStr
    else if entryDate.length = 2 then
      Except.ok currentYear
    else
      Except.error "Unexpected result computing year!"
  match months.indexOf? month with
  | none => Except.error "ValueError: unrecognized month"
  | some monthIdx =>
    if day < 1 ∨ 31 < day then
      Except.error "ValueError: day out of range"
    else
      match pyNat minuteStr with
      | Except.error e => Except.error e
      | Except.ok minute =>
        if 59 < minute then
          Except.error "ValueError: minute out of range"
        else if hour < 1 ∨ 12 < hour then
          Except.error "ValueError: hour out of range for 12-hour clock"
        else
          let hour24 :=
            if period = "am" then hour % 12
            else hour % 12 + 12
          if period = "am" ∨ period = "pm" then
            Except.ok (toString (mktime
              ⟨year, monthIdx + 1, day, hour24, minute, 0⟩))
          else
            Except.error "ValueError: bad am/pm field"

/-- parseDateHTML (hmdcoutages.py lines 186-349) from the scanned token
list onward: pad the token list to one of the two canonical shapes by the
raw token count, then compute starttime (always) and endtime (only when
more than two cleaned tokens remain; otherwise the "0"*10 sentinel). -/
def parseDateHTML (mktime : CivilTime → Int) (currentYear : Nat)
    (dates : List (List String)) : Except String DateDict :=
  let cleanedE : Except String (List (List String)) :=
    match dates with
    | [_, _, _, _] => Except.ok dates
    | [a, b, c] => Except.ok [a, b, a, c]
    | [a, b] =>
      match b.head? with
      | none => Except.error "IndexError: tuple index out of range"
      | some m =>
        if months.contains m then
          Except.ok [a, ["12", "00", "am"], b, ["11", "59", "pm"]]
        else
          Except.ok [a, b]
    | [a] => Except.ok [a, ["12", "00", "am"], a, ["11", "59", "pm"]]
    | _ => Except.error "Unexpected number of raw date elements found!"
  match cleanedE with
  | Except.error e => Except.error e
  | Except.ok cleaned =>
    match formatDateAsUnix mktime currentYear cleaned 0 with
    | Except.error e => Except.error e
    | Except.ok starttime =>
      if cleaned.length > 2 then
        match formatDateAsUnix mktime currentYear cleaned 2 with
        | Except.error e => Except.error e
        | Except.ok endtime => Except.ok { starttime := starttime, endtime := endtime }
      else
        Except.ok { starttime := starttime, endtime := "0000000000" }

/-- Days between 1970-01-01 and the given civil date (proleptic Gregorian),
used to build a concrete executable mktime instance for witnesses. -/
def daysFromCivil (y : Int) (m : Nat) (d : Nat) : Int :=
  let yAdj : Int := if m ≤ 2 then y - 1 else y
  let era : Int := (if 0 ≤ yAdj then yAdj else yAdj - 399) / 400
  let yoe : Int := yAdj - era * 400
  let mp : Int := ((m : Int) + 9) % 12
  let doy : Int := (153 * mp + 2) / 5 + (d : Int) - 1
  let doe : Int := yoe * 365 + yoe / 4 - yoe / 100 + doy
  era * 146097 + doe - 719468

/-- Concrete civil-to-epoch conversion (a fixed-offset instantiation of the
mktime parameter, sufficient for closed witnesses). -/
def epochOfCivil (ct : CivilTime) : Int :=
  86400 * daysFromCivil ct.year ct.month ct.day +
    3600 * ct.hour + 60 * ct.minute + ct.second

/-- C4 counterexample: the two-token scan [date Mar 26, time 10:10pm] is NOT
normalized to the four-token shape; parseDateHTML leaves it at two tokens,
so endtime is the "0"*10 sentinel (no end time) instead of a real timestamp
on that date, while starttime is the date plus time (22:10 local). -/
theorem claim_C4_counterexample :
    parseDateHTML epochOfCivil 2015 [["Mar", "26"], ["10", "10", "pm"]] =
      Except.ok { starttime := toString (epochOfCivil ⟨2015, 3, 26, 22, 10, 0⟩),
                  endtime := "0000000000" } := by
  rfl

/-- C4 amended: a two-token scan whose second token is not a date (its first
component is not a month name) is left unpadded: the result is the start
timestamp computed from the single date-time pair together with the
"0"*10 no-end sentinel, not the four-token treatment. -/
theorem claim_C4 (mktime : CivilTime → Int) (currentYear : Nat)
    (a : List String) (m : String) (bs : List String)
    (hm : months.contains m = false) :
    parseDateHTML mktime currentYear [a, m :: bs] =
      (formatDateAsUnix mktime currentYear [a, m :: bs] 0).map
        (fun s => { starttime := s, endtime := "0000000000" }) := by
  unfold parseDateHTML
  simp only [List.head?_cons, hm, Bool.false_eq_true, if_false]
  rcases hf : formatDateAsUnix mktime currentYear [a, m :: bs] 0 with e | s <;>
    simp [hf, Except.map]

/-- C4 witness for the amended statement at the concrete scan
[Mar 26, 10:10pm] with the executable mktime instance. -/
theorem claim_C4_witness :
    months.contains "10" = false ∧
    parseDateHTML epochOfCivil 2015 [["Mar", "26"], ["10", "10", "pm"]] =
      (formatDateAsUnix epochOfCivil 2015 [["Mar", "26"], ["10", "10", "pm"]] 0).map
        (fun s => { starttime := s, endtime := "0000000000" }) :=
  ⟨rfl, claim_C4 epochOfCivil 2015 ["Mar", "26"] "10" ["10", "pm"] rfl⟩

/-- C6: a single-token scan [Mar 27] (month-day, no year, no times) is
padded to the all-day shape: starttime is March 27 00:00:00 and endtime is
March 27 23:59:00 of the current year, both rendered through the local-time
mktime conversion. -/
theorem claim_C6 (mktime : CivilTime → Int) (currentYear : Nat) :
    parseDateHTML mktime currentYear [["Mar", "27"]] =
      Except.ok { starttime := toString (mktime ⟨currentYear, 3, 27, 0, 0, 0⟩),
                  endtime := toString (mktime ⟨currentYear, 3, 27, 23, 59, 0⟩) } := by
  rfl

/-
ChangeDetector (hmdcoutages.py, isFeedUpdated).  The on-disk state is the
cache file, the temp file and the accepted parsed snapshot (each either
absent or holding a byte string).  The composition
writeParsedXML(parseOutagesICAL(content)) is a pure function of the cache
content and is passed as the serializeParse parameter.  On a fetch failure
the except handlers themselves raise (they print the undefined name url),
so the method aborts before touching any file; this is modelled as the
error result with the state returned unchanged.
-/

/-- The two urllib2 failure kinds caught (and re-raised as NameError). -/
inductive FetchError
  | httpError
  | urlError
deriving Repr, DecidableEq

/-- The three files isFeedUpdated touches under DIR. -/
structure FeedState where
  cache : Option String
  temp : Option String
  parsed : Option String
deriving Repr, DecidableEq

/-- isFeedUpdated (hmdcoutages.py lines 99-160): download the feed over the
cache file, serialize its parse into the temp file, compare to the accepted
parsed snapshot (always updated when no snapshot exists yet), then either
install the temp file as the new snapshot (changed) or delete it
(unchanged).  Returns the feedUpdated flag and the final file state. -/
def isFeedUpdated (serializeParse : String → String)
    (fetch : Except FetchError String) (fs : FeedState) :
    Except String Bool × FeedState :=
  match fetch with
  | Except.error _ =>
      (Except.error "NameError: name url is not defined", fs)
  | Except.ok feed =>
      let tempContent := serializeParse feed
      match fs.parsed with
      | some parsedContent =>
        if tempContent ≠ parsedContent then
          (Except.ok true,
           { cache := some feed, temp := none, parsed := some tempContent })
        else
          (Except.ok false,
           { cache := some feed, temp := none, parsed := some parsedContent })
      | none =>
        (Except.ok true,
         { cache := some feed, temp := none, parsed := some tempContent })

lemma isFeedUpdated_parsed (serializeParse : String → String)
    (feed : String) (fs : FeedState) :
    (isFeedUpdated serializeParse (Except.ok feed) fs).2.parsed =
      some (serializeParse feed) := by
  rcases hp : fs.parsed with _ | p
  · simp [isFeedUpdated, hp]
  · by_cases hq : serializeParse feed = p
    · simp [isFeedUpdated, hp, hq]
    · simp [isFeedUpdated, hp, hq]

/-- C7: running isFeedUpdated again on a feed whose serialized parse is
unchanged reports changed = false, keeps the accepted snapshot byte-identical
to what the first run left, and discards the temp copy. -/
theorem claim_C7 (serializeParse : String → String) (fs0 : FeedState)
    (feed1 feed2 : String)
    (h : serializeParse feed2 = serializeParse feed1) :
    isFeedUpdated serializeParse (Except.ok feed2)
        (isFeedUpdated serializeParse (Except.ok feed1) fs0).2 =
      (Except.ok false,
       { cache := some feed2, temp := none,
         parsed := (isFeedUpdated serializeParse (Except.ok feed1) fs0).2.parsed }) ∧
    (isFeedUpdated serializeParse (Except.ok feed1) fs0).2.parsed =
      some (serializeParse feed1) := by
  have h1 := isFeedUpdated_parsed serializeParse feed1 fs0
  refine ⟨?_, h1⟩
  generalize (isFeedUpdated serializeParse (Except.ok feed1) fs0).2 = fs1 at h1 ⊢
  simp [isFeedUpdated, h1, h]

/-- C7 witness: identity serialization, empty initial state, same feed twice. -/
theorem claim_C7_witness :
    isFeedUpdated (fun s => s) (Except.ok "feed")
        (isFeedUpdated (fun s => s) (Except.ok "feed")
          ⟨none, none, none⟩).2 =
      (Except.ok false,
       { cache := some "feed", temp := none,
         parsed := (isFeedUpdated (fun s => s) (Except.ok "feed")
           ⟨none, none, none⟩).2.parsed }) ∧
    (isFeedUpdated (fun s => s) (Except.ok "feed")
        ⟨none, none, none⟩).2.parsed = some "feed" :=
  claim_C7 (fun s => s) ⟨none, none, none⟩ "feed" "feed" rfl

/-- C8: when the fetch fails the cycle is abandoned (the method raises
before any file operation: the except handler itself references the
undefined name url) and the cache, temp and parsed snapshot files are all
left exactly as they were. -/
theorem claim_C8 (serializeParse : String → String) (err : FetchError)
    (fs : FeedState) :
    isFeedUpdated serializeParse (Except.error err) fs =
      (Except.error "NameError: name url is not defined", fs) := by
  rfl

/-
Snapshot serialization (hmdcoutages.py, writeParsedXML and parseOutagesXML
with parse=1, plus sanitizeText).  writeParsedXML emits one XML item per
record with the six text nodes title, link, resolved, starttime, endtime,
modtime; parseOutagesXML in clean-XML mode reads the items back, casting
the three times with int(), comparing resolved against "True", and
re-sanitizing the title.  The XML transport layer (lxml out, BeautifulSoup
in) is modelled as faithful per-field text transport; Python int() is
modelled on the decimal forms the snapshot contains.
-/

/-- All-string record as produced by parseOutagesICAL or the parse=0 RSS
branch: the form handed to writeParsedXML. -/
structure RawOutage where
  title : String
  link : String
  resolved : String
  starttime : String
  endtime : String
  modtime : String
deriving Repr, DecidableEq

/-- One item element of the parsed snapshot file: the six text nodes
writeParsedXML writes for one record. -/
structure XMLItem where
  title : String
  link : String
  resolved : String
  starttime : String
  endtime : String
  modtime : String
deriving Repr, DecidableEq

/-- Typed record as produced by parseOutagesXML with parse=1. -/
structure ParsedOutage where
  title : String
  link : String
  resolved : Bool
  starttime : Int
  endtime : Int
  modtime : Int
deriving Repr, DecidableEq

/-- writeParsedXML (hmdcoutages.py lines 505-561): one item per outage, each
field written as the text of its subelement, order preserved. -/
def writeParsedXML (outages : List RawOutage) : List XMLItem :=
  outages.map (fun o =>
    ⟨o.title, o.link, o.resolved, o.starttime, o.endtime, o.modtime⟩)

/-- The whitespace class of the Python regex \s (ASCII). -/
def isPySpace (c : Char) : Bool :=
  c = ' ' ∨ c = '\t' ∨ c = '\n' ∨ c = '\r' ∨ c = '\x0b' ∨ c = '\x0c'

/-- One character of sanitizeText: anything outside \w and \s becomes an
underscore. -/
def sanitizeChar (c : Char) : Char :=
  if c.isAlphanum ∨ c = '_' ∨ isPySpace c then c else '_'

/-- sanitizeText (hmdcoutages.py lines 499-502): re.sub of [^\w\s] by
underscore over the text. -/
def sanitizeText (text : String) : String :=
  String.mk (text.data.map sanitizeChar)

/-- Python int() on the decimal literals found in the snapshot file
(optionally negative; sign-plus and whitespace forms do not occur there). -/
def pyInt (s : String) : Except String Int :=
  match s.data with
  | [] => Except.error "ValueError: invalid literal for int"
  | c :: cs =>
    if c = '-' then
      match cs with
      | [] => Except.error "ValueError: invalid literal for int"
      | _ =>
        match digitsToNat cs 0 with
        | some n => Except.ok (-(n : Int))
        | none => Except.error "ValueError: invalid literal for int"
    else
      match digitsToNat (c :: cs) 0 with
      | some n => Except.ok ((n : Nat) : Int)
      | none => Except.error "ValueError: invalid literal for int"

/-- The per-item body of the parse=1 branch of parseOutagesXML
(hmdcoutages.py lines 471-494): times cast to int, resolved compared with
"True", title sanitized again. -/
def parseOutageItem (item : XMLItem) : Except String ParsedOutage :=
  match pyInt item.starttime with
  | Except.error e => Except.error e
  | Except.ok starttime =>
    match pyInt item.endtime with
    | Except.error e => Except.error e
    | Except.ok endtime =>
      match pyInt item.modtime with
      | Except.error e => Except.error e
      | Except.ok modtime =>
        Except.ok
          { title := sanitizeText item.title,
            link := item.link,
            resolved := item.resolved == "True",
            starttime := starttime,
            endtime := endtime,
            modtime := modtime }

/-- parseOutagesXML with parse=1: every item of the snapshot in feed order
(the first failing item aborts the parse, as the uncaught exception does). -/
def parseOutagesXML1 : List XMLItem → Except String (List ParsedOutage)
  | [] => Except.ok []
  | item :: rest =>
    match parseOutageItem item with
    | Except.error e => Except.error e
    | Except.ok o =>
      match parseOutagesXML1 rest with
      | Except.error e => Except.error e
      | Except.ok os => Except.ok (o :: os)

/-- C10: the snapshot round-trips: writing records whose times are valid
decimal strings, whose resolved field is "True"/"False" and whose title is
already sanitized, then reading the file back in clean-XML mode, recovers
the same records in order with the three times as integers and resolved as
a boolean. -/
theorem claim_C10 (rs : List RawOutage)
    (h : ∀ r ∈ rs,
      (∃ n : Nat, pyInt r.starttime = Except.ok (n : Int)) ∧
      (∃ n : Nat, pyInt r.endtime = Except.ok (n : Int)) ∧
      (∃ n : Nat, pyInt r.modtime = Except.ok (n : Int)) ∧
      (r.resolved = "True" ∨ r.resolved = "False") ∧
      sanitizeText r.title = r.title) :
    parseOutagesXML1 (writeParsedXML rs) =
      Except.ok (rs.map (fun r =>
        { title := r.title,
          link := r.link,
          resolved := r.resolved == "True",
          starttime := (pyInt r.starttime).toOption.getD 0,
          endtime := (pyInt r.endtime).toOption.getD 0,
          modtime := (pyInt r.modtime).toOption.getD 0 })) := by
  induction rs with
  | nil => rfl
  | cons r rest ih =>
    obtain ⟨⟨st, hst⟩, ⟨en, hen⟩, ⟨mo, hmo⟩, hres, htitle⟩ := h r (by simp)
    have hrest := ih (fun x hx => h x (by simp [hx]))
    simp only [writeParsedXML, List.map_cons] at hrest ⊢
    simp [parseOutagesXML1, parseOutageItem, hst, hen, hmo, htitle, hrest,
      Except.toOption]

/-- C10 witness: one concrete record with decimal times, resolved "True"
and a sanitized title round-trips. -/
theorem claim_C10_witness :
    parseOutagesXML1 (writeParsedXML
        [⟨"Outage_X", "http://example.org/x", "True",
          "1427407800", "0000000000", "0000000000"⟩]) =
      Except.ok ([⟨"Outage_X", "http://example.org/x", "True",
          "1427407800", "0000000000", "0000000000"⟩].map
        (fun r : RawOutage =>
          ({ title := r.title,
             link := r.link,
             resolved := r.resolved == "True",
             starttime := (pyInt r.starttime).toOption.getD 0,
             endtime := (pyInt r.endtime).toOption.getD 0,
             modtime := (pyInt r.modtime).toOption.getD 0 } : ParsedOutage))) :=
  claim_C10 _ (by
    intro r hr
    simp only [List.mem_singleton] at hr
    subst hr
    exact ⟨⟨1427407800, rfl⟩, ⟨0, rfl⟩, ⟨0, rfl⟩, Or.inl rfl, rfl⟩)

end OutageNotifier
